import Mathlib

/-!
Shallow embedding of the relay handler in src/lambda/index.py.

The handler receives an HTTP-triggered event, performs a best-effort
health probe, parses the body, builds a prompt from the conversation
history, POSTs a generation request upstream, and shapes the result
(or any failure) into an HTTP response.  The embedding models the
handler as a pure function from an oracle input (probe outcome, parsed
body, upstream outcome) to the list of outbound HTTP calls it issues
together with the HTTP response it returns.
-/

namespace SimpleChat

/-- A conversation entry, a dict with keys role and content. -/
structure Message where
  role : String
  content : String
deriving DecidableEq

/-- Python str.capitalize: first character uppercased, the rest lowercased. -/
def pyCapitalize (s : String) : String :=
  match s.data with
  | [] => ""
  | c :: cs => String.mk (c.toUpper :: cs.map Char.toLower)

/-- One history line of the prompt, from line 65 of index.py. -/
def formatEntry (m : Message) : String :=
  pyCapitalize m.role ++ ": " ++ m.content

/-- Prompt assembly, lines 65-67 of index.py: history lines, then the
final user line, joined by newlines. -/
def buildPrompt (history : List Message) (userMsg : String) : String :=
  String.intercalate "\n"
    (history.map formatEntry ++ ["User: " ++ userMsg ++ "\nAssistant:"])

/-- The JSON payload POSTed to the generate endpoint, lines 69-75. -/
structure GenerationRequest where
  prompt : String
  max_new_tokens : Nat
  temperature : Rat
  top_p : Rat
  do_sample : Bool
deriving DecidableEq

/-- The parsed upstream JSON body, restricted to the two keys the
handler reads: generated_text (line 84, via .get, so absence is None)
and response_time (line 89, direct subscript, so absence raises
KeyError). -/
structure GenResult where
  generated_text : Option String
  response_time : Option Rat
deriving DecidableEq

/-- Outcome of the upstream generate call as observed by the handler:
a 2xx response with parsed JSON, an HTTPError carrying status code and
body, a URLError carrying a reason, or a 2xx response whose body fails
JSON decoding (JSONDecodeError, caught by the generic except). -/
inductive UpstreamOutcome where
  | ok (result : GenResult)
  | httpError (code : Nat) (errBody : String)
  | urlError (reason : String)
  | badJson (errMsg : String)
deriving DecidableEq

/-- Outcome of parsing the inbound event body (lines 60-62):
json.loads may raise (malformed, carrying the exception text), or it
yields a dict in which the message key may be absent and
conversationHistory is optional (default empty list). -/
inductive BodyParse where
  | malformed (errMsg : String)
  | parsed (message : Option String) (conversationHistory : Option (List Message))
deriving DecidableEq

/-- Outcome of the best-effort health probe (lines 52-56): either a
response, or an exception whose text is printed and swallowed. -/
inductive ProbeOutcome where
  | ok (health : String)
  | failed (errMsg : String)
deriving DecidableEq

/-- The JSON body of the handler response: the success dict of
lines 102-108 carries success=true, response and conversationHistory;
the failure dict of line 134 carries success=false and error. -/
inductive ResponseBody where
  | success (response : String) (conversationHistory : List Message)
  | failure (error : String)
deriving DecidableEq

/-- The success flag of the body dict. -/
def ResponseBody.successFlag : ResponseBody → Bool
  | .success _ _ => true
  | .failure _ => false

/-- The conversationHistory key of the body dict, when present. -/
def ResponseBody.historyField : ResponseBody → Option (List Message)
  | .success _ h => some h
  | .failure _ => none

/-- The dict returned by the handler. -/
structure HttpResponse where
  statusCode : Nat
  headers : List (String × String)
  body : ResponseBody
deriving DecidableEq

/-- The header dict used by both the success response (lines 96-101)
and the error response (lines 128-133). -/
def corsHeaders : List (String × String) :=
  [("Content-Type", "application/json"),
   ("Access-Control-Allow-Origin", "*"),
   ("Access-Control-Allow-Headers", "Content-Type,Authorization"),
   ("Access-Control-Allow-Methods", "OPTIONS,POST")]

/-- The shared 500 response builder, lines 123-135 of index.py. -/
def error_response (message : String) : HttpResponse :=
  { statusCode := 500, headers := corsHeaders, body := .failure message }

def GENERATE_PATH : String := "/generate"

def HEALTH_PATH : String := "/health"

/-- The ValueError message raised at line 86 when generated_text is
absent or empty. -/
def generatedTextMissingMsg : String :=
  "FastAPI から \x27generated_text\x27 が返りませんでした"

/-- str of the KeyError raised at line 61 when the body lacks the
message key. -/
def keyErrorMessageMsg : String := "\x27message\x27"

/-- str of the KeyError raised at line 89 when the upstream result
lacks the response_time key. -/
def keyErrorResponseTimeMsg : String := "\x27response_time\x27"

/-- One outbound HTTP call issued through _call_fastapi / _build_request
(lines 29-44): path joined onto the base URL, method (POST when a
payload is given, GET otherwise), optional JSON payload, timeout. -/
structure OutboundCall where
  path : String
  method : String
  payload : Option GenerationRequest
  timeout : Nat
deriving DecidableEq

/-- The health probe call of line 53: GET to the health path, no
payload, timeout 5. -/
def healthCall : OutboundCall :=
  { path := HEALTH_PATH, method := "GET", payload := none, timeout := 5 }

/-- Oracle input for one invocation: the observed outcome of the probe,
of parsing the inbound body, and of the upstream generate call. -/
structure HandlerInput where
  probe : ProbeOutcome
  body : BodyParse
  upstream : UpstreamOutcome
deriving DecidableEq

/-- Lines 84-120: the branch on the upstream outcome once the generate
call has been issued.  A 2xx result with absent or empty generated_text
raises ValueError (line 86); a present, non-empty generated_text is then
logged with a direct subscript of response_time (line 89), which raises
KeyError when that key is absent; otherwise the assistant reply is
appended to the history and the 200 response built (lines 93-109).
HTTPError, URLError and the generic except are mapped by the handlers
of lines 112-120. -/
def handleUpstream (up : UpstreamOutcome) (history : List Message) : HttpResponse :=
  match up with
  | .httpError code errBody =>
      error_response ("HTTPError " ++ toString code ++ ": " ++ errBody)
  | .urlError reason =>
      error_response ("URLError: " ++ reason)
  | .badJson errMsg =>
      error_response errMsg
  | .ok result =>
      match result.generated_text with
      | none => error_response generatedTextMissingMsg
      | some reply =>
          if reply = "" then error_response generatedTextMissingMsg
          else
            match result.response_time with
            | none => error_response keyErrorResponseTimeMsg
            | some _ =>
                { statusCode := 200,
                  headers := corsHeaders,
                  body := .success reply
                    (history ++ [{ role := "assistant", content := reply }]) }

/-- lambda_handler, lines 47-120 of index.py, as a pure function from
the oracle input to the list of outbound calls issued and the response
returned.  The probe (lines 51-56) is always attempted first and its
outcome only printed; then the body is parsed (malformed JSON or a
missing message key raise and are caught by the generic except of
line 119); on a parsed body the prompt is built, the fixed-parameter
payload constructed (lines 69-75) and POSTed to the generate path with
timeout 60 (line 81), and the upstream outcome shaped by
handleUpstream. -/
def lambda_handler (inp : HandlerInput) : List OutboundCall × HttpResponse :=
  match inp.body with
  | .malformed errMsg => ([healthCall], error_response errMsg)
  | .parsed none _ => ([healthCall], error_response keyErrorMessageMsg)
  | .parsed (some userMsg) hist? =>
      let history := hist?.getD []
      let payload : GenerationRequest :=
        { prompt := buildPrompt history userMsg,
          max_new_tokens := 512,
          temperature := 0.7,
          top_p := 0.9,
          do_sample := true }
      let genCall : OutboundCall :=
        { path := GENERATE_PATH, method := "POST",
          payload := some payload, timeout := 60 }
      ([healthCall, genCall], handleUpstream inp.upstream history)

/-- The prompts carried by the calls of a trace that target the
generate path. -/
def generatePrompts (calls : List OutboundCall) : List String :=
  calls.filterMap fun c =>
    if c.path = GENERATE_PATH then c.payload.map GenerationRequest.prompt else none

/-- Every branch of the upstream handling yields either the shared 500
error response or the 200 success response with the CORS headers. -/
theorem handleUpstream_cases (up : UpstreamOutcome) (history : List Message) :
    (∃ msg, handleUpstream up history = error_response msg) ∨
    (∃ g h2, handleUpstream up history =
      { statusCode := 200, headers := corsHeaders, body := .success g h2 }) := by
  cases up with
  | httpError code errBody => exact Or.inl ⟨_, rfl⟩
  | urlError reason => exact Or.inl ⟨_, rfl⟩
  | badJson errMsg => exact Or.inl ⟨_, rfl⟩
  | ok result =>
    obtain ⟨gt, rt⟩ := result
    cases gt with
    | none => exact Or.inl ⟨_, rfl⟩
    | some reply =>
      by_cases hr : reply = ""
      · exact Or.inl ⟨generatedTextMissingMsg, by simp [handleUpstream, hr]⟩
      · cases rt with
        | none => exact Or.inl ⟨keyErrorResponseTimeMsg, by simp [handleUpstream, hr]⟩
        | some t =>
          exact Or.inr ⟨reply, history ++ [{ role := "assistant", content := reply }],
            by simp [handleUpstream, hr]⟩

/-- Every invocation returns either the shared 500 error response or
the 200 success response with the CORS headers. -/
theorem response_cases (inp : HandlerInput) :
    (∃ msg, (lambda_handler inp).2 = error_response msg) ∨
    (∃ g h2, (lambda_handler inp).2 =
      { statusCode := 200, headers := corsHeaders, body := .success g h2 }) := by
  obtain ⟨p, b, up⟩ := inp
  cases b with
  | malformed errMsg => exact Or.inl ⟨errMsg, rfl⟩
  | parsed msg? h? =>
    cases msg? with
    | none => exact Or.inl ⟨keyErrorMessageMsg, rfl⟩
    | some m => exact handleUpstream_cases up (h?.getD [])

/-- C1: for every parsed body with message m, the prompt sent to the
generate endpoint is exactly the newline-joined lines of the history
(each entry formatted as capitalized role, colon, space, content, in
order) followed by the final user/assistant line; with an empty or
absent conversationHistory the prompt is exactly that final line. -/
theorem C1_prompt_construction (p : ProbeOutcome) (up : UpstreamOutcome)
    (h? : Option (List Message)) (m : String) :
    generatePrompts (lambda_handler ⟨p, .parsed (some m) h?, up⟩).1 =
      [String.intercalate "\n"
        ((h?.getD []).map (fun e => pyCapitalize e.role ++ ": " ++ e.content)
          ++ ["User: " ++ m ++ "\nAssistant:"])] ∧
    (h? = none ∨ h? = some [] →
      generatePrompts (lambda_handler ⟨p, .parsed (some m) h?, up⟩).1 =
        ["User: " ++ m ++ "\nAssistant:"]) := by
  refine ⟨rfl, ?_⟩
  rintro (rfl | rfl) <;> rfl

/-- C1 witness: with no conversationHistory and message hi, the one
prompt sent upstream is the bare final line. -/
theorem C1_prompt_construction_witness :
    generatePrompts
      (lambda_handler ⟨.ok "up", .parsed (some "hi") none, .urlError "refused"⟩).1 =
      ["User: hi\nAssistant:"] :=
  (C1_prompt_construction (.ok "up") (.urlError "refused") none "hi").2 (Or.inl rfl)

/-- C2: when the upstream call yields a well-formed GenerationResult
whose generated_text is a non-empty string g, the handler returns
statusCode 200 with success true, response g, and conversationHistory
equal to the input history with exactly one assistant entry carrying g
appended; the input history value is untouched (the embedding is pure
and the returned history is computed as a fresh append). -/
theorem C2_success_response (p : ProbeOutcome) (h? : Option (List Message))
    (m g : String) (rt : Rat) (hg : g ≠ "") :
    (lambda_handler ⟨p, .parsed (some m) h?, .ok ⟨some g, some rt⟩⟩).2 =
      { statusCode := 200, headers := corsHeaders,
        body := .success g
          ((h?.getD []) ++ [{ role := "assistant", content := g }]) } ∧
    ((lambda_handler ⟨p, .parsed (some m) h?, .ok ⟨some g, some rt⟩⟩).2.statusCode = 200 ∧
     (lambda_handler ⟨p, .parsed (some m) h?, .ok ⟨some g, some rt⟩⟩).2.body.successFlag = true) := by
  have h1 : (lambda_handler ⟨p, .parsed (some m) h?, .ok ⟨some g, some rt⟩⟩).2 =
      { statusCode := 200, headers := corsHeaders,
        body := .success g
          ((h?.getD []) ++ [{ role := "assistant", content := g }]) } := by
    simp [lambda_handler, handleUpstream, hg]
  exact ⟨h1, by rw [h1], by rw [h1]; rfl⟩

/-- C2 witness: a concrete successful generation with one prior turn. -/
theorem C2_success_response_witness :
    (lambda_handler ⟨.ok "up", .parsed (some "hi") (some [⟨"user", "prev"⟩]),
        .ok ⟨some "hello", some 1⟩⟩).2 =
      { statusCode := 200, headers := corsHeaders,
        body := .success "hello" [⟨"user", "prev"⟩, ⟨"assistant", "hello"⟩] } :=
  (C2_success_response (.ok "up") (some [⟨"user", "prev"⟩]) "hi" "hello" 1
    (by decide)).1

/-- C3: when the upstream 2xx JSON lacks generated_text or carries it
as the empty string, the handler returns the 500 failure response whose
message names the generated_text field, the payload carries no
conversationHistory, and the message is not of the transport-error
forms (it does not start with HTTPError or URLError). -/
theorem C3_missing_generated_text (p : ProbeOutcome) (h? : Option (List Message))
    (m : String) (gt : Option String) (rt : Option Rat)
    (hgt : gt = none ∨ gt = some "") :
    (lambda_handler ⟨p, .parsed (some m) h?, .ok ⟨gt, rt⟩⟩).2 =
      error_response generatedTextMissingMsg ∧
    (lambda_handler ⟨p, .parsed (some m) h?, .ok ⟨gt, rt⟩⟩).2.statusCode = 500 ∧
    (lambda_handler ⟨p, .parsed (some m) h?, .ok ⟨gt, rt⟩⟩).2.body.successFlag = false ∧
    (lambda_handler ⟨p, .parsed (some m) h?, .ok ⟨gt, rt⟩⟩).2.body.historyField = none ∧
    (∃ pre post, generatedTextMissingMsg = pre ++ "generated_text" ++ post) ∧
    ("HTTPError ".data.isPrefixOf generatedTextMissingMsg.data = false ∧
     "URLError: ".data.isPrefixOf generatedTextMissingMsg.data = false) := by
  have h1 : (lambda_handler ⟨p, .parsed (some m) h?, .ok ⟨gt, rt⟩⟩).2 =
      error_response generatedTextMissingMsg := by
    rcases hgt with rfl | rfl <;> simp [lambda_handler, handleUpstream]
  refine ⟨h1, by rw [h1]; rfl, by rw [h1]; rfl, by rw [h1]; rfl, ?_, by decide, by decide⟩
  exact ⟨"FastAPI から \x27", "\x27 が返りませんでした", by decide⟩

/-- C3 witness: a concrete invocation whose upstream JSON has an empty
generated_text yields the 500 missing-field failure. -/
theorem C3_missing_generated_text_witness :
    (lambda_handler ⟨.ok "up", .parsed (some "hi") none, .ok ⟨some "", some 1⟩⟩).2 =
      error_response generatedTextMissingMsg :=
  (C3_missing_generated_text (.ok "up") none "hi" (some "") (some 1)
    (Or.inr rfl)).1

/-- C4: an upstream non-2xx status with code c and body text b yields
the 500 failure response with success false and message of the form
HTTPError c: b, and exactly one generate call is attempted (no retry). -/
theorem C4_http_status_error (p : ProbeOutcome) (h? : Option (List Message))
    (m : String) (code : Nat) (errBody : String) :
    (lambda_handler ⟨p, .parsed (some m) h?, .httpError code errBody⟩).2 =
      error_response ("HTTPError " ++ toString code ++ ": " ++ errBody) ∧
    (lambda_handler ⟨p, .parsed (some m) h?, .httpError code errBody⟩).2.statusCode = 500 ∧
    (lambda_handler ⟨p, .parsed (some m) h?, .httpError code errBody⟩).2.body.successFlag = false ∧
    ((lambda_handler ⟨p, .parsed (some m) h?, .httpError code errBody⟩).1.countP
      (fun c => c.path == GENERATE_PATH)) = 1 :=
  ⟨rfl, rfl, rfl, rfl⟩

/-- C5: a transport-level URLError with a given reason yields the 500
failure response with success false and message URLError: reason, and
exactly one generate call is attempted (no retry). -/
theorem C5_transport_error (p : ProbeOutcome) (h? : Option (List Message))
    (m : String) (reason : String) :
    (lambda_handler ⟨p, .parsed (some m) h?, .urlError reason⟩).2 =
      error_response ("URLError: " ++ reason) ∧
    (lambda_handler ⟨p, .parsed (some m) h?, .urlError reason⟩).2.statusCode = 500 ∧
    (lambda_handler ⟨p, .parsed (some m) h?, .urlError reason⟩).2.body.successFlag = false ∧
    ((lambda_handler ⟨p, .parsed (some m) h?, .urlError reason⟩).1.countP
      (fun c => c.path == GENERATE_PATH)) = 1 :=
  ⟨rfl, rfl, rfl, rfl⟩

/-- C6: a body that is not parseable as JSON, or that lacks the
message key, never escapes as an exception: the handler returns the
structured 500 failure carrying the exception text; and on every input
whatsoever the handler returns either a 500 failure payload or a 200
success payload (every exception of the main block is converted). -/
theorem C6_input_errors_handled :
    (∀ (p : ProbeOutcome) (up : UpstreamOutcome) (errMsg : String),
      (lambda_handler ⟨p, .malformed errMsg, up⟩).2 = error_response errMsg) ∧
    (∀ (p : ProbeOutcome) (up : UpstreamOutcome) (h? : Option (List Message)),
      (lambda_handler ⟨p, .parsed none h?, up⟩).2 = error_response keyErrorMessageMsg) ∧
    (∀ inp : HandlerInput,
      ((lambda_handler inp).2.statusCode = 500 ∧
        (lambda_handler inp).2.body.successFlag = false) ∨
      ((lambda_handler inp).2.statusCode = 200 ∧
        (lambda_handler inp).2.body.successFlag = true)) := by
  refine ⟨fun p up errMsg => rfl, fun p up h? => rfl, fun inp => ?_⟩
  rcases response_cases inp with ⟨msg, hmsg⟩ | ⟨g, h2, hok⟩
  · exact Or.inl ⟨by rw [hmsg]; rfl, by rw [hmsg]; rfl⟩
  · exact Or.inr ⟨by rw [hok], by rw [hok]; rfl⟩

/-- C7: the probe outcome has no effect on the returned response: two
invocations differing only in the probe outcome return equal responses
(indeed equal call traces as well), and in particular a failed probe
combined with a successful generate call still returns 200 with
success true. -/
theorem C7_probe_noninterference :
    (∀ (p1 p2 : ProbeOutcome) (b : BodyParse) (up : UpstreamOutcome),
      lambda_handler ⟨p1, b, up⟩ = lambda_handler ⟨p2, b, up⟩) ∧
    (∀ (e m g : String) (rt : Rat) (h? : Option (List Message)), g ≠ "" →
      (lambda_handler ⟨.failed e, .parsed (some m) h?, .ok ⟨some g, some rt⟩⟩).2.statusCode = 200 ∧
      (lambda_handler ⟨.failed e, .parsed (some m) h?, .ok ⟨some g, some rt⟩⟩).2.body.successFlag = true) := by
  refine ⟨fun p1 p2 b up => rfl, fun e m g rt h? hg => ?_⟩
  constructor <;> simp [lambda_handler, handleUpstream, hg, ResponseBody.successFlag]

/-- C7 witness: a failed probe with a successful generation still
returns 200. -/
theorem C7_probe_noninterference_witness :
    (lambda_handler ⟨.failed "connection refused", .parsed (some "hi") none,
        .ok ⟨some "hello", some 1⟩⟩).2.statusCode = 200 :=
  (C7_probe_noninterference.2 "connection refused" "hi" "hello" 1 none
    (by decide)).1

/-- C8: on every invocation whose body parses with a message, the
outbound calls are exactly a GET to the health path with timeout 5
followed by a POST to the generate path with timeout 60 whose payload
is the constructed prompt together with the fixed constants
max_new_tokens 512, temperature 0.7, top_p 0.9, do_sample true,
independent of the input. -/
theorem C8_outbound_calls (p : ProbeOutcome) (up : UpstreamOutcome)
    (h? : Option (List Message)) (m : String) :
    (lambda_handler ⟨p, .parsed (some m) h?, up⟩).1 =
      [{ path := HEALTH_PATH, method := "GET", payload := none, timeout := 5 },
       { path := GENERATE_PATH, method := "POST",
         payload := some { prompt := buildPrompt (h?.getD []) m,
                           max_new_tokens := 512, temperature := 0.7,
                           top_p := 0.9, do_sample := true },
         timeout := 60 }] := rfl

/-- C9: every response, success or failure, carries the three CORS
allowance headers, and its statusCode is 200 exactly when the success
flag is true and 500 on every handled failure. -/
theorem C9_headers_and_status (inp : HandlerInput) :
    (("Access-Control-Allow-Origin", "*") ∈ (lambda_handler inp).2.headers ∧
     ("Access-Control-Allow-Headers", "Content-Type,Authorization") ∈ (lambda_handler inp).2.headers ∧
     ("Access-Control-Allow-Methods", "OPTIONS,POST") ∈ (lambda_handler inp).2.headers) ∧
    ((lambda_handler inp).2.statusCode = 200 ↔
      (lambda_handler inp).2.body.successFlag = true) ∧
    ((lambda_handler inp).2.body.successFlag = false →
      (lambda_handler inp).2.statusCode = 500) := by
  rcases response_cases inp with ⟨msg, hmsg⟩ | ⟨g, h2, hok⟩ <;>
    [rw [hmsg]; rw [hok]] <;>
    refine ⟨⟨?_, ?_, ?_⟩, ?_, ?_⟩ <;>
    simp [error_response, corsHeaders, ResponseBody.successFlag]

/-- C9 witness: a concrete failure response has statusCode 500. -/
theorem C9_headers_and_status_witness :
    (lambda_handler ⟨.ok "up", .malformed "Expecting value", .urlError "x"⟩).2.statusCode = 500 :=
  (C9_headers_and_status ⟨.ok "up", .malformed "Expecting value", .urlError "x"⟩).2.2
    (by decide)

/-- C10: an upstream 2xx JSON carrying a non-empty generated_text but
no response_time key makes the handler return the 500 failure whose
message is the KeyError text for response_time, not a success: the
subscript of response_time in the logging line runs before the success
response is built. -/
theorem C10_missing_response_time (p : ProbeOutcome) (h? : Option (List Message))
    (m g : String) (hg : g ≠ "") :
    (lambda_handler ⟨p, .parsed (some m) h?, .ok ⟨some g, none⟩⟩).2 =
      error_response keyErrorResponseTimeMsg ∧
    (lambda_handler ⟨p, .parsed (some m) h?, .ok ⟨some g, none⟩⟩).2.statusCode = 500 ∧
    (lambda_handler ⟨p, .parsed (some m) h?, .ok ⟨some g, none⟩⟩).2.body.successFlag = false := by
  have h1 : (lambda_handler ⟨p, .parsed (some m) h?, .ok ⟨some g, none⟩⟩).2 =
      error_response keyErrorResponseTimeMsg := by
    simp [lambda_handler, handleUpstream, hg]
  exact ⟨h1, by rw [h1]; rfl, by rw [h1]; rfl⟩

/-- C10 witness: a concrete generation result lacking response_time
yields the KeyError failure. -/
theorem C10_missing_response_time_witness :
    (lambda_handler ⟨.ok "up", .parsed (some "hi") none, .ok ⟨some "hello", none⟩⟩).2 =
      error_response keyErrorResponseTimeMsg :=
  (C10_missing_response_time (.ok "up") none "hi" "hello" (by decide)).1

end SimpleChat
